import Mathlib

/-!
Shallow embedding of the AWS documentation crawler (src/main.py) and
verification of the specification claims about it.

The embedding models:
  - the module-level configuration constants (lines 13-54 of main.py);
  - the shared dedup registry (the Python dict downloaded_files guarded by
    the single threading.Lock) as an association list with newest-first
    lookup, so that a later insertion for the same key shadows the earlier
    binding exactly as a dict assignment does;
  - the link-discovery functions fetch_related_links / fetch_pdf_links as
    pure functions of the list of href attributes the rendered page
    exposes, together with an error-aware wrapper that reflects which
    statements of the Python function sit inside its try block;
  - download_pdf as a small program of atomic actions (the lock-guarded
    membership check, the unlocked streaming file write, the lock-guarded
    dict insertion), run under an arbitrary interleaving of two pipeline
    threads, since the lock is held separately for the check and for the
    commit;
  - merge_pdfs and summarize_sizes as functions of a snapshot of the
    product directory, and the main scheduling loop as a function of the
    per-product outcomes.
-/

namespace AwsCrawler

/-- Configuration constant BASE_URL (main.py line 13). -/
def BASE_URL : String := "https://docs.aws.amazon.com/"

/-- Configuration constant OUTPUT_DIR (main.py line 14). -/
def OUTPUT_DIR : String := "aws_docs"

/-- PRODUCT_DIR, the os.path.join of OUTPUT_DIR and "products" (line 15). -/
def PRODUCT_DIR : String := OUTPUT_DIR ++ "/products"

/-- Configuration constant MAX_DEPTH (main.py line 17). -/
def MAX_DEPTH : Nat := 2

/-- Configuration constant MAX_THREADS (main.py line 18). -/
def MAX_THREADS : Nat := 5

/-- AWS_PRODUCTS (main.py lines 20-54). In the Python source the items on
lines 24-25 are the adjacent literals "ebs" "vpc" with no comma between
them; Python implicit string concatenation evaluates that pair to the
single element "ebsvpc", so the evaluated list has 31 elements. The
trailing comma after "cloudformation" adds no element. -/
def AWS_PRODUCTS : List String :=
  ["ec2", "lambda", "s3", "ebsvpc", "route53", "rds", "dynamodb", "iam",
   "kms", "kinesis", "cloudwatch", "elb", "cloudtrail", "autoscaling",
   "trusted-advisor", "config", "wellarchitected", "cloudfront",
   "api-gateway", "sqs", "sns", "eventbridge", "codepipeline", "codebuild",
   "codedeploy", "systems-manager", "aws-backup", "aws-organizations",
   "transit-gateway", "step-functions", "cloudformation"]

/-- Lookup in an association list, newest binding first. Used for the
shared dict downloaded_files and for the filesystem model. -/
def lookupKey {β : Type} : List (String × β) → String → Option β
  | [], _ => none
  | (k, v) :: rest, f => if k = f then some v else lookupKey rest f

/-- Insertion for the association-list model of a Python dict assignment
d[k] = v. The new binding is placed at the head, so lookupKey sees the
newest value and any earlier binding for the same key is shadowed
(observationally overwritten). -/
def insertKey {β : Type} (m : List (String × β)) (k : String) (v : β) :
    List (String × β) :=
  (k, v) :: m

/-- The shared registry downloaded_files (main.py line 57): basename of a
downloaded document mapped to the local path it was saved at. -/
abbrev Reg := List (String × String)

/-- Filesystem model: full path mapped to the byte content written there.
Bytes are modelled as natural numbers. -/
abbrev FS := List (String × List Nat)

/-- Leading-segment test on character lists: startsL pat cs is true when
pat is an initial segment of cs. The string operations of the Python
source are modelled on the character lists underlying the strings so that
every definition evaluates by kernel reduction. -/
def startsL : List Char → List Char → Bool
  | [], _ => true
  | _ :: _, [] => false
  | a :: as, b :: bs => a = b && startsL as bs

/-- Occurrence test on character lists: containsL pat cs is true when pat
occurs contiguously somewhere in cs. -/
def containsL (pat : List Char) : List Char → Bool
  | [] => startsL pat []
  | c :: rest => startsL pat (c :: rest) || containsL pat rest

/-- Python str.startswith (main.py line 83). -/
def startsWithB (s pat : String) : Bool :=
  startsL pat.data s.data

/-- Python str.endswith (main.py lines 102, 167, 188). -/
def endsWithB (s pat : String) : Bool :=
  startsL pat.data.reverse s.data.reverse

/-- The XPath contains(@href, pat) filter of find_elements (main.py lines
80 and 99). -/
def containsB (s pat : String) : Bool :=
  containsL pat.data s.data

/-- os.path.basename as used on the crawled URLs (main.py lines 103, 124,
128, 139, 151): the final component after the last slash. -/
def basename (s : String) : String :=
  String.mk ((s.data.reverse.takeWhile (fun c => c ≠ '/')).reverse)

/-- Lexicographic comparison of character lists by code point, the
ordering Python sorted() uses on strings. -/
def leL : List Char → List Char → Bool
  | [], _ => true
  | _ :: _, [] => false
  | a :: as, b :: bs => if a < b then true else if b < a then false else leL as bs

/-- Lexicographic comparison of strings by code point. -/
def leS (a b : String) : Bool :=
  leL a.data b.data

/-- Core of fetch_related_links (main.py lines 79-88): from the href
attributes of the rendered page, keep those the XPath filter matched
(contain "/latest/") and that start with BASE_URL, then deduplicate
(list(set(...)) at line 88). The Python truthiness test on the href
(line 83) only excludes the empty string, which the startsWith filter
already rejects. -/
def fetch_related_links_core (hrefs : List String) : List String :=
  (hrefs.filter (fun h => containsB h "/latest/" && startsWithB h BASE_URL)).dedup

/-- Core of fetch_pdf_links (main.py lines 98-115): keep hrefs the XPath
filter matched (contain ".pdf") that end with ".pdf" and whose basename is
not already in the registry (the lock-guarded advisory check at lines
106-109), then deduplicate (line 115). There is no BASE_URL filter in this
function. -/
def fetch_pdf_links_core (reg : Reg) (hrefs : List String) : List String :=
  (hrefs.filter (fun h =>
    containsB h ".pdf" && endsWithB h ".pdf" &&
      (lookupKey reg (basename h)).isNone)).dedup

/-- Outcome of rendering one page for discovery. driver.get either raises
(loadFail) or the page loads and find_elements either raises or returns
the href attributes of the matched elements. In the Python source
driver.get sits OUTSIDE the try block of both discovery functions
(lines 74 and 93), while find_elements and the collection loop sit inside
it (lines 79-87 and 98-112). -/
inductive PageLoad where
  | loadFail (msg : String)
  | loaded (find : Except String (List String))

/-- fetch_related_links with its error behaviour (main.py lines 68-88): an
exception from driver.get propagates (it is outside the try block); an
exception from find_elements is caught by the except at line 85 and the
list collected so far, still empty, is returned. -/
def fetch_related_linksE : PageLoad → Except String (List String)
  | .loadFail m => .error m
  | .loaded (.error _) => .ok []
  | .loaded (.ok hrefs) => .ok (fetch_related_links_core hrefs)

/-- fetch_pdf_links with its error behaviour (main.py lines 90-115), same
try-block layout as fetch_related_links. -/
def fetch_pdf_linksE (reg : Reg) : PageLoad → Except String (List String)
  | .loadFail m => .error m
  | .loaded (.error _) => .ok []
  | .loaded (.ok hrefs) => .ok (fetch_pdf_links_core reg hrefs)

/-- Snapshot of one product directory when aggregation and reporting run:
whether os.makedirs ever created it, and the (filename, size in bytes)
entries os.listdir would report. -/
structure DirState where
  present : Bool
  files : List (String × Nat)
deriving DecidableEq

/-- The filenames of a directory snapshot. -/
def dirNames (d : DirState) : List String :=
  d.files.map (fun fe => fe.1)

/-- The ordered input list merge_pdfs builds (main.py line 167): sorted()
over the directory listing, then the ".pdf" suffix filter. sorted() is
modelled by insertion sort with the lexicographic order on strings; for a
total order this produces the same list as any correct sort. Paths are
kept as bare filenames; os.path.join only prepends the fixed directory. -/
def merge_input (names : List String) : List String :=
  (List.insertionSort (fun a b => leS a b = true) names).filter
    (fun f => endsWithB f ".pdf")

/-- merge_pdfs (main.py lines 157-183) reduced to the list of files it
feeds the PdfMerger, in order: none when the directory does not exist
(line 163) or no ".pdf" files are present (line 169), otherwise the sorted
filtered listing appended one by one (lines 174-175). -/
def merge_pdfs (d : DirState) : Option (List String) :=
  if d.present = false then none
  else
    let pdf_files := merge_input (dirNames d)
    if pdf_files.isEmpty then none else some pdf_files

/-- summarize_sizes (main.py lines 185-197): os.listdir at line 188 raises
FileNotFoundError when the product directory does not exist; otherwise the
".pdf" entries are reported with their sizes and the total. Sizes are kept
in bytes; the Python code divides by 1024*1024 for display only. -/
def summarize_sizes (d : DirState) : Except String (List (String × Nat) × Nat) :=
  if d.present = false then .error "FileNotFoundError"
  else
    let pdfs := d.files.filter (fun fe => endsWithB fe.1 ".pdf")
    .ok (pdfs, pdfs.foldl (fun acc fe => acc + fe.2) 0)

/-- One iteration of the loop over as_completed in main (lines 229-230):
once a future.result() call has re-raised (the accumulator is an error),
the loop body is never reached again; before that, the loop observes the
next outcome. -/
def resultFold (acc r : Except String Unit) : Except String Unit :=
  match acc with
  | .error e => .error e
  | .ok _ => r

/-- The loop over as_completed in main (lines 229-230): future.result() is
called on each completed future in turn, so the first failed outcome is
re-raised and every outcome before it is discarded. Folding keeps the
first error. -/
def main_outcome (rs : List (Except String Unit)) : Except String Unit :=
  rs.foldl resultFold (.ok ())

/-- Process exit status of a run of main (lines 222-235): a Python script
whose main raises exits nonzero; it exits 0 only when main returns
normally, i.e. when no future.result() call re-raised. -/
def exit_code (rs : List (Except String Unit)) : Nat :=
  match main_outcome rs with
  | .ok _ => 0
  | .error _ => 1

/-- Result of the requests.get fetch inside download_pdf:
httpError = connection error or raise_for_status before any byte is
written (lines 134-135); midStream = the response streamed some chunks
into the open file and then iter_content raised (lines 145-147);
success = all chunks written. -/
inductive FetchResult where
  | httpError
  | midStream (part : List Nat)
  | success (bytes : List Nat)

/-- The atomic actions of one download_pdf call, as delimited by the lock:
check f is the lock-guarded membership test (lines 127-130, early return
when f is registered); write p bytes is the unlocked streaming write of
the fetched bytes to path p (lines 134-147); commit f p is the
lock-guarded dict insertion (lines 150-151). The lock is released between
check and commit. -/
inductive Act where
  | check (f : String)
  | write (p : String) (bytes : List Nat)
  | commit (f p : String)

/-- Local path download_pdf writes to (lines 122-124):
PRODUCT_DIR/product/basename(url). -/
def dlPath (url product : String) : String :=
  PRODUCT_DIR ++ "/" ++ product ++ "/" ++ basename url

/-- The action sequence of one download_pdf(url, product) call with fetch
outcome fr. On httpError the except clause at line 154 only logs: no write
and no commit. On a mid-stream error the with-block leaves the partial
file on disk and the except clause again skips the commit. Only a fully
successful fetch reaches the commit at lines 150-151. -/
def downloadProg (url product : String) (fr : FetchResult) : List Act :=
  Act.check (basename url) ::
    (match fr with
     | .httpError => []
     | .midStream part => [Act.write (dlPath url product) part]
     | .success bytes =>
         [Act.write (dlPath url product) bytes,
          Act.commit (basename url) (dlPath url product)])

/-- Shared-memory system of two pipeline threads: the registry and the
filesystem are shared, each thread holds its remaining download actions,
and wrote records whether the thread has performed a filesystem write. -/
structure Sys where
  reg : Reg
  fs : FS
  prog1 : List Act
  prog2 : List Act
  wrote1 : Bool
  wrote2 : Bool

/-- One scheduler step: run the next atomic action of thread 1 (first =
true) or thread 2 (first = false). A check that finds the basename
registered abandons the rest of that thread's program (the early return at
line 129). A thread with no remaining actions idles. -/
def step (s : Sys) (first : Bool) : Sys :=
  if first then
    match s.prog1 with
    | [] => s
    | Act.check f :: rest =>
        if (lookupKey s.reg f).isSome then { s with prog1 := [] }
        else { s with prog1 := rest }
    | Act.write p bytes :: rest =>
        { s with fs := insertKey s.fs p bytes, prog1 := rest, wrote1 := true }
    | Act.commit f p :: rest =>
        { s with reg := insertKey s.reg f p, prog1 := rest }
  else
    match s.prog2 with
    | [] => s
    | Act.check f :: rest =>
        if (lookupKey s.reg f).isSome then { s with prog2 := [] }
        else { s with prog2 := rest }
    | Act.write p bytes :: rest =>
        { s with fs := insertKey s.fs p bytes, prog2 := rest, wrote2 := true }
    | Act.commit f p :: rest =>
        { s with reg := insertKey s.reg f p, prog2 := rest }

/-- Run a schedule: the interleaving of the two threads is the list of
choices, one per step. -/
def run (sched : List Bool) (s : Sys) : Sys :=
  sched.foldl step s

/-- Initial system state for two concurrent download_pdf calls racing on
the same URL basename from different product pipelines. -/
def initRace (reg : Reg) (fs : FS) (url p1 p2 : String)
    (fr1 fr2 : FetchResult) : Sys :=
  { reg := reg, fs := fs,
    prog1 := downloadProg url p1 fr1,
    prog2 := downloadProg url p2 fr2,
    wrote1 := false, wrote2 := false }

/-! Helper lemmas. -/

/-- The lexicographic comparison on character lists is total. -/
theorem leL_total : ∀ a b : List Char, leL a b = true ∨ leL b a = true := by
  intro a
  induction a with
  | nil => intro b; left; rfl
  | cons x xs ih =>
    intro b
    cases b with
    | nil => right; rfl
    | cons y ys =>
      rcases lt_trichotomy x y with h | h | h
      · left; simp [leL, h]
      · subst h
        rcases ih ys with h2 | h2
        · left; simp [leL, lt_irrefl, h2]
        · right; simp [leL, lt_irrefl, h2]
      · right; simp [leL, h]

/-- The lexicographic comparison on character lists is transitive. -/
theorem leL_trans : ∀ a b c : List Char,
    leL a b = true → leL b c = true → leL a c = true := by
  intro a
  induction a with
  | nil => intro b c h1 h2; rfl
  | cons x xs ih =>
    intro b c h1 h2
    cases b with
    | nil => simp [leL] at h1
    | cons y ys =>
      cases c with
      | nil => simp [leL] at h2
      | cons z zs =>
        rcases lt_trichotomy x y with hxy | hxy | hxy
        · rcases lt_trichotomy y z with hyz | hyz | hyz
          · simp [leL, lt_trans hxy hyz]
          · subst hyz; simp [leL, hxy]
          · simp [leL, lt_asymm hyz, hyz] at h2
        · subst hxy
          simp only [leL, lt_irrefl, if_false] at h1
          rcases lt_trichotomy x z with hxz | hxz | hxz
          · simp [leL, hxz]
          · subst hxz
            simp only [leL, lt_irrefl, if_false] at h2 ⊢
            exact ih ys zs h1 h2
          · simp [leL, lt_asymm hxz, hxz] at h2
        · simp [leL, lt_asymm hxy, hxy] at h1

instance instLeSTotal : IsTotal String fun a b => leS a b = true :=
  ⟨fun a b => leL_total a.data b.data⟩

instance instLeSTrans : IsTrans String fun a b => leS a b = true :=
  ⟨fun a b c => leL_trans a.data b.data c.data⟩

/-- Membership in the list merge_pdfs feeds the merger: exactly the ".pdf"
entries of the directory listing. -/
theorem mem_merge_input (names : List String) (f : String) :
    f ∈ merge_input names ↔ (f ∈ names ∧ endsWithB f ".pdf" = true) := by
  unfold merge_input
  rw [List.mem_filter]
  constructor
  · rintro ⟨h1, h2⟩
    exact ⟨(List.perm_insertionSort _ names).mem_iff.mp h1, h2⟩
  · rintro ⟨h1, h2⟩
    exact ⟨(List.perm_insertionSort _ names).mem_iff.mpr h1, h2⟩

/-- The list merge_pdfs feeds the merger is in ascending lexicographic
order. -/
theorem sorted_merge_input (names : List String) :
    List.Sorted (fun a b => leS a b = true) (merge_input names) :=
  (List.sorted_insertionSort (fun a b => leS a b = true) names).filter _

/-- Inserting a binding never deletes another key from an association
list. -/
theorem lookupKey_insert_isSome {β : Type} (m : List (String × β)) (k f : String)
    (v : β) (h : (lookupKey m f).isSome = true) :
    (lookupKey (insertKey m k v) f).isSome = true := by
  simp only [insertKey, lookupKey]
  split
  · rfl
  · exact h

/-- No scheduler step removes a key from the shared registry: a check
leaves the registry unchanged, a write touches only the filesystem, and a
commit inserts. -/
theorem step_reg_mono (s : Sys) (b : Bool) (f : String)
    (h : (lookupKey s.reg f).isSome = true) :
    (lookupKey (step s b).reg f).isSome = true := by
  unfold step
  cases b with
  | false =>
    cases hp : s.prog2 with
    | nil => simpa using h
    | cons a rest =>
      cases a with
      | check g => simp only [Bool.false_eq_true, if_false]; split <;> simpa using h
      | write p bytes => simpa using h
      | commit g p => simpa using lookupKey_insert_isSome s.reg g f p h
  | true =>
    cases hp : s.prog1 with
    | nil => simpa using h
    | cons a rest =>
      cases a with
      | check g => simp only [if_true]; split <;> simpa using h
      | write p bytes => simpa using h
      | commit g p => simpa using lookupKey_insert_isSome s.reg g f p h

/-- The fold main uses over as_completed outcomes returns ok exactly when
the accumulator is ok and every listed outcome is ok. -/
theorem foldl_resultFold_ok (rs : List (Except String Unit)) :
    ∀ acc : Except String Unit,
      (rs.foldl resultFold acc = Except.ok ()) ↔
        (acc = Except.ok () ∧ ∀ r ∈ rs, r = Except.ok ()) := by
  induction rs with
  | nil => intro acc; simp
  | cons r rest ih =>
    intro acc
    rw [List.foldl_cons, ih (resultFold acc r)]
    cases acc with
    | error e => simp [resultFold]
    | ok u =>
      cases u
      simp [resultFold]

/-- main returns normally exactly when every product pipeline completed
without raising. -/
theorem main_outcome_ok_iff (rs : List (Except String Unit)) :
    main_outcome rs = Except.ok () ↔ ∀ r ∈ rs, r = Except.ok () := by
  unfold main_outcome
  rw [foldl_resultFold_ok]
  simp

/-- Exit status 0 exactly when every product pipeline succeeded. -/
theorem exit_code_eq_zero_iff (rs : List (Except String Unit)) :
    exit_code rs = 0 ↔ ∀ r ∈ rs, r = Except.ok () := by
  unfold exit_code
  cases h : main_outcome rs with
  | ok u =>
    cases u
    constructor
    · intro _
      exact (main_outcome_ok_iff rs).mp h
    · intro _
      rfl
  | error e =>
    constructor
    · intro h1
      simp at h1
    · intro hall
      have h2 := (main_outcome_ok_iff rs).mpr hall
      rw [h] at h2
      simp at h2

/-! Claim theorems. -/

/-- Claim C1, counterexample. Two per-product pipelines race to download
the same basename g.pdf. Under the interleaving in which both lock-guarded
checks in download_pdf run before either lock-guarded commit, both
pipelines pass the registry check, both fetch, and both write a file named
g.pdf (one per product directory), refuting that at most one claimant
proceeds: the check and the commit are separate critical sections, not one
atomic check-and-reserve. -/
theorem C1_counterexample :
    (run [true, false, true, true, false, false]
      (initRace [] [] "https://docs.aws.amazon.com/ec2/latest/g.pdf" "ec2" "lambda"
        (FetchResult.success [1]) (FetchResult.success [2]))).wrote1 = true ∧
    (run [true, false, true, true, false, false]
      (initRace [] [] "https://docs.aws.amazon.com/ec2/latest/g.pdf" "ec2" "lambda"
        (FetchResult.success [1]) (FetchResult.success [2]))).wrote2 = true ∧
    lookupKey (run [true, false, true, true, false, false]
      (initRace [] [] "https://docs.aws.amazon.com/ec2/latest/g.pdf" "ec2" "lambda"
        (FetchResult.success [1]) (FetchResult.success [2]))).fs
      "aws_docs/products/ec2/g.pdf" = some [1] ∧
    lookupKey (run [true, false, true, true, false, false]
      (initRace [] [] "https://docs.aws.amazon.com/ec2/latest/g.pdf" "ec2" "lambda"
        (FetchResult.success [1]) (FetchResult.success [2]))).fs
      "aws_docs/products/lambda/g.pdf" = some [2] := by
  refine ⟨by decide, by decide, by decide, by decide⟩

/-- Claim C1, amended. The registry check of download_pdf does not reserve
the filename, so two racing pipelines may both pass it (see the
counterexample); a pipeline is guaranteed to skip without writing exactly
when the other pipeline committed before its check, as in the fully
sequential interleaving proved here: the first download writes and
commits, and the second then observes the basename registered and performs
no filesystem write. -/
theorem C1_amended_sequential (url p1 p2 : String) (b1 b2 : List Nat) :
    (run [true, true, true, false, false, false]
      (initRace [] [] url p1 p2 (FetchResult.success b1)
        (FetchResult.success b2))).wrote1 = true ∧
    (run [true, true, true, false, false, false]
      (initRace [] [] url p1 p2 (FetchResult.success b1)
        (FetchResult.success b2))).wrote2 = false := by
  constructor <;>
    simp [run, initRace, downloadProg, step, lookupKey, insertKey, List.foldl]

/-- Claim C2, counterexample. Under the racing interleaving of the C1
counterexample, the registry entry for g.pdf first maps to the ec2 path
after the first commit, and is then overwritten with the lambda path by
the second commit: an entry present in the registry is not stable for the
rest of the run. -/
theorem C2_counterexample :
    lookupKey (run [true, false, true, true]
      (initRace [] [] "https://docs.aws.amazon.com/ec2/latest/g.pdf" "ec2" "lambda"
        (FetchResult.success [1]) (FetchResult.success [2]))).reg "g.pdf" =
      some "aws_docs/products/ec2/g.pdf" ∧
    lookupKey (run [true, false, true, true, false, false]
      (initRace [] [] "https://docs.aws.amazon.com/ec2/latest/g.pdf" "ec2" "lambda"
        (FetchResult.success [1]) (FetchResult.success [2]))).reg "g.pdf" =
      some "aws_docs/products/lambda/g.pdf" ∧
    ("aws_docs/products/ec2/g.pdf" : String) ≠ "aws_docs/products/lambda/g.pdf" := by
  refine ⟨by decide, by decide, by decide⟩

/-- Claim C2, amended: once a filename is present in the Dedup Registry it
is never removed, under every interleaving of registry operations (checks
leave the registry unchanged, writes touch only the filesystem, commits
only insert); but a racing commit may overwrite the entry with a different
path, as the counterexample shows. -/
theorem C2_entry_never_removed (sched : List Bool) (s : Sys) (f : String)
    (h : (lookupKey s.reg f).isSome = true) :
    (lookupKey (run sched s).reg f).isSome = true := by
  induction sched generalizing s with
  | nil => simpa [run] using h
  | cons b t ih =>
    have hr : run (b :: t) s = run t (step s b) := rfl
    rw [hr]
    exact ih (step s b) (step_reg_mono s b f h)

/-- Witness for the amended claim C2 at a concrete registry, schedule and
state. -/
theorem C2_entry_never_removed_witness :
    (lookupKey ([("g.pdf", "aws_docs/products/ec2/g.pdf")] : Reg) "g.pdf").isSome
      = true ∧
    (lookupKey (run [true, false]
      { reg := [("g.pdf", "aws_docs/products/ec2/g.pdf")], fs := [],
        prog1 := [], prog2 := [], wrote1 := false, wrote2 := false }).reg
      "g.pdf").isSome = true :=
  ⟨by decide,
   C2_entry_never_removed [true, false]
     { reg := [("g.pdf", "aws_docs/products/ec2/g.pdf")], fs := [],
       prog1 := [], prog2 := [], wrote1 := false, wrote2 := false }
     "g.pdf" (by decide)⟩

/-- Claim C3, counterexample. A pipeline whose fetch of g.pdf fails
(requests raises before any byte is written) leaves the registry without
any entry for g.pdf: the basename is not reserved. A later attempt in the
same run (a second pipeline scheduled afterwards) passes the check,
downloads g.pdf and commits it, refuting that the filename is permanently
blocked for the run. -/
theorem C3_counterexample :
    lookupKey (run [true]
      (initRace [] [] "https://docs.aws.amazon.com/ec2/latest/g.pdf" "ec2" "lambda"
        FetchResult.httpError (FetchResult.success [7]))).reg "g.pdf" = none ∧
    (run [true, false, false, false]
      (initRace [] [] "https://docs.aws.amazon.com/ec2/latest/g.pdf" "ec2" "lambda"
        FetchResult.httpError (FetchResult.success [7]))).wrote2 = true ∧
    lookupKey (run [true, false, false, false]
      (initRace [] [] "https://docs.aws.amazon.com/ec2/latest/g.pdf" "ec2" "lambda"
        FetchResult.httpError (FetchResult.success [7]))).reg "g.pdf" =
      some "aws_docs/products/lambda/g.pdf" := by
  refine ⟨by decide, by decide, by decide⟩

/-- Claim C3, amended. A fetch failure is only logged and the registry is
left unchanged for the basename: download_pdf takes no claim before the
fetch, its commit runs only after a fully successful write. Consequently a
later attempt within the same run on the same basename passes the check
and can download the filename. -/
theorem C3_amended_failed_fetch_not_reserved (url p1 p2 : String)
    (bytes : List Nat) (reg : Reg) (fs : FS)
    (h : lookupKey reg (basename url) = none) :
    lookupKey (run [true]
      (initRace reg fs url p1 p2 FetchResult.httpError
        (FetchResult.success bytes))).reg (basename url) = none ∧
    (run [true, false, false, false]
      (initRace reg fs url p1 p2 FetchResult.httpError
        (FetchResult.success bytes))).wrote2 = true ∧
    lookupKey (run [true, false, false, false]
      (initRace reg fs url p1 p2 FetchResult.httpError
        (FetchResult.success bytes))).reg (basename url) =
      some (dlPath url p2) := by
  refine ⟨?_, ?_, ?_⟩ <;>
    simp [run, initRace, downloadProg, step, List.foldl, h, lookupKey, insertKey]

/-- Witness for the amended claim C3 at a concrete URL and empty
registry. -/
theorem C3_amended_failed_fetch_not_reserved_witness :
    lookupKey ([] : Reg) (basename "https://docs.aws.amazon.com/s3/latest/u.pdf")
      = none ∧
    (lookupKey (run [true]
      (initRace [] [] "https://docs.aws.amazon.com/s3/latest/u.pdf" "s3" "rds"
        FetchResult.httpError (FetchResult.success [9]))).reg
      (basename "https://docs.aws.amazon.com/s3/latest/u.pdf") = none ∧
    (run [true, false, false, false]
      (initRace [] [] "https://docs.aws.amazon.com/s3/latest/u.pdf" "s3" "rds"
        FetchResult.httpError (FetchResult.success [9]))).wrote2 = true ∧
    lookupKey (run [true, false, false, false]
      (initRace [] [] "https://docs.aws.amazon.com/s3/latest/u.pdf" "s3" "rds"
        FetchResult.httpError (FetchResult.success [9]))).reg
      (basename "https://docs.aws.amazon.com/s3/latest/u.pdf") =
      some (dlPath "https://docs.aws.amazon.com/s3/latest/u.pdf" "rds")) :=
  ⟨by decide,
   C3_amended_failed_fetch_not_reserved
     "https://docs.aws.amazon.com/s3/latest/u.pdf" "s3" "rds" [9] [] []
     (by decide)⟩

/-- Claim C4, counterexample. fetch_pdf_links filters candidates only by
the ".pdf" suffix and never compares them against BASE_URL, so document
discovery on a page holding an off-site link returns a URL outside the
configured base URL, refuting that discovery never returns a URL outside
that scope. -/
theorem C4_counterexample :
    fetch_pdf_links_core [] ["https://other.com/b.pdf"] =
      ["https://other.com/b.pdf"] ∧
    startsWithB "https://other.com/b.pdf" BASE_URL = false := by
  refine ⟨by decide, by decide⟩

/-- Claim C4, amended. Related-page discovery returns only URLs that start
with the configured BASE_URL; document-link discovery guarantees only the
".pdf" suffix and may return URLs outside BASE_URL (see the
counterexample). -/
theorem C4_amended_scopes (hrefs : List String) (reg : Reg) (u : String) :
    (u ∈ fetch_related_links_core hrefs → startsWithB u BASE_URL = true) ∧
    (u ∈ fetch_pdf_links_core reg hrefs → endsWithB u ".pdf" = true) := by
  constructor
  · intro h
    have h2 := (List.mem_filter.mp (List.mem_dedup.mp h)).2
    simp only [Bool.and_eq_true] at h2
    exact h2.2
  · intro h
    have h2 := (List.mem_filter.mp (List.mem_dedup.mp h)).2
    simp only [Bool.and_eq_true] at h2
    exact h2.1.2

/-- Witness for the amended claim C4 at concrete discovered URLs. -/
theorem C4_amended_scopes_witness :
    startsWithB "https://docs.aws.amazon.com/ec2/latest/g.pdf" BASE_URL = true ∧
    endsWithB "https://other.com/b.pdf" ".pdf" = true :=
  ⟨(C4_amended_scopes ["https://docs.aws.amazon.com/ec2/latest/g.pdf"] []
      "https://docs.aws.amazon.com/ec2/latest/g.pdf").1 (by decide),
   (C4_amended_scopes ["https://other.com/b.pdf"] []
      "https://other.com/b.pdf").2 (by decide)⟩

/-- Claim C5, counterexample. driver.get sits outside the try block of
both discovery functions, so an error raised while loading the page
propagates out of discovery instead of being caught and turned into an
empty result. -/
theorem C5_counterexample :
    fetch_related_linksE (PageLoad.loadFail "net error") =
      Except.error "net error" ∧
    fetch_pdf_linksE [] (PageLoad.loadFail "net error") =
      Except.error "net error" :=
  ⟨rfl, rfl⟩

/-- Claim C5, amended. Only errors raised while inspecting the loaded page
(find_elements and the collection loop, inside the try block) are caught
by discovery, which then returns the links collected so far - empty when
element lookup itself fails; an error raised while loading the page
(driver.get, outside the try block) propagates out of both discovery
operations. -/
theorem C5_amended_error_scope (m : String) (reg : Reg) :
    fetch_related_linksE (PageLoad.loaded (Except.error m)) = Except.ok [] ∧
    fetch_pdf_linksE reg (PageLoad.loaded (Except.error m)) = Except.ok [] ∧
    fetch_related_linksE (PageLoad.loadFail m) = Except.error m ∧
    fetch_pdf_linksE reg (PageLoad.loadFail m) = Except.error m :=
  ⟨rfl, rfl, rfl, rfl⟩

/-- Claim C6. With zero discovered documents the product directory is
never created (os.makedirs runs only inside download_pdf), merge_pdfs does
skip with a diagnostic, but summarize_sizes calls os.listdir on the absent
directory and raises FileNotFoundError instead of reporting 0 files and
0 MB: the pipeline does not complete without raising. -/
theorem C6_missing_dir_raises :
    merge_pdfs ⟨false, []⟩ = none ∧
    summarize_sizes ⟨false, []⟩ = Except.error "FileNotFoundError" :=
  ⟨rfl, rfl⟩

/-- Claim C7, counterexample. A run in which the first completed product
pipeline raised and a second succeeded exits with status 1, not 0:
future.result() re-raises the failure inside main, main propagates it, and
the interpreter exits nonzero. -/
theorem C7_counterexample :
    exit_code [Except.error "boom", Except.ok ()] = 1 ∧
    exit_code [Except.error "boom", Except.ok ()] ≠ 0 := by
  refine ⟨rfl, by decide⟩

/-- Claim C7, amended. All product futures are submitted before any
result is inspected, so one failure does not keep sibling pipelines from
running, but the failure is re-raised by main: the process exits with
status 0 exactly when every product pipeline completed without raising,
and with status 1 exactly when some pipeline failed - failures are
reflected in the exit status. -/
theorem C7_amended_exit (rs : List (Except String Unit)) :
    (exit_code rs = 0 ↔ ∀ r ∈ rs, r = Except.ok ()) ∧
    (exit_code rs = 1 ↔ ¬ ∀ r ∈ rs, r = Except.ok ()) := by
  refine ⟨exit_code_eq_zero_iff rs, ?_⟩
  have hz := exit_code_eq_zero_iff rs
  unfold exit_code at hz ⊢
  cases h : main_outcome rs with
  | ok u =>
    rw [h] at hz
    cases u
    constructor
    · intro h1
      simp at h1
    · intro hn
      exact absurd (hz.mp rfl) hn
  | error e =>
    rw [h] at hz
    constructor
    · intro _ hall
      have h2 := (main_outcome_ok_iff rs).mpr hall
      rw [h] at h2
      simp at h2
    · intro _
      rfl

/-- Claim C8. When aggregation runs for a product, the list merge_pdfs
passes to the PdfMerger is sorted ascending by the lexicographic order on
filenames and holds exactly the ".pdf" files present in the directory
snapshot taken at aggregation time. -/
theorem C8_merge_sorted_exact (d : DirState) (l : List String)
    (h : merge_pdfs d = some l) :
    List.Sorted (fun a b => leS a b = true) l ∧
    ∀ f, (f ∈ l ↔ f ∈ dirNames d ∧ endsWithB f ".pdf" = true) := by
  unfold merge_pdfs at h
  split at h
  · exact absurd h (by simp)
  · dsimp only at h
    split at h
    · exact absurd h (by simp)
    · injection h with h
      subst h
      exact ⟨sorted_merge_input _, fun f => mem_merge_input _ f⟩

/-- Witness for claim C8 at a concrete directory snapshot. -/
theorem C8_merge_sorted_exact_witness :
    List.Sorted (fun a b => leS a b = true) ["a.pdf", "b.pdf"] ∧
    ∀ f, (f ∈ (["a.pdf", "b.pdf"] : List String) ↔
      f ∈ dirNames ⟨true, [("b.pdf", 2), ("a.pdf", 1), ("n.txt", 3)]⟩ ∧
        endsWithB f ".pdf" = true) :=
  C8_merge_sorted_exact ⟨true, [("b.pdf", 2), ("a.pdf", 1), ("n.txt", 3)]⟩
    ["a.pdf", "b.pdf"] (by decide)

/-- Claim C9. The evaluated product list contains the fused element
"ebsvpc" produced by the missing comma between the adjacent literals "ebs"
and "vpc", and contains neither "ebs" nor "vpc": main submits one pipeline
per element of AWS_PRODUCTS, so a pipeline runs for the nonexistent
product "ebsvpc" and never for "ebs" or "vpc". -/
theorem C9_products_fused :
    ("ebsvpc" ∈ AWS_PRODUCTS) ∧ ("ebs" ∉ AWS_PRODUCTS) ∧
      ("vpc" ∉ AWS_PRODUCTS) := by
  refine ⟨by decide, by decide, by decide⟩

/-- Claim C10. When the fetch fails mid-stream after chunks were written,
download_pdf leaves the registry unchanged for the basename, the partial
file stays on disk at the product path with the bytes written so far, and
since it bears the ".pdf" suffix it is listed by the subsequent
aggregation input and by the size summary of the product directory. -/
theorem C10_partial_file_kept (url product : String) (part : List Nat)
    (reg : Reg) (fs : FS) (files : List (String × Nat)) (sz : Nat)
    (h1 : lookupKey reg (basename url) = none)
    (h2 : endsWithB (basename url) ".pdf" = true)
    (h3 : (basename url, sz) ∈ files) :
    ((run [true, true]
      { reg := reg, fs := fs,
        prog1 := downloadProg url product (FetchResult.midStream part),
        prog2 := [], wrote1 := false, wrote2 := false }).reg = reg) ∧
    (lookupKey (run [true, true]
      { reg := reg, fs := fs,
        prog1 := downloadProg url product (FetchResult.midStream part),
        prog2 := [], wrote1 := false, wrote2 := false }).fs
      (dlPath url product) = some part) ∧
    basename url ∈ merge_input (files.map (fun fe => fe.1)) ∧
    (∃ pdfs total, summarize_sizes ⟨true, files⟩ = Except.ok (pdfs, total) ∧
      (basename url, sz) ∈ pdfs) := by
  refine ⟨?_, ?_, ?_, ?_⟩
  · simp [run, step, downloadProg, List.foldl, h1]
  · simp [run, step, downloadProg, List.foldl, h1, insertKey, lookupKey]
  · exact (mem_merge_input _ _).mpr
      ⟨List.mem_map.mpr ⟨(basename url, sz), h3, rfl⟩, h2⟩
  · refine ⟨files.filter (fun fe => endsWithB fe.1 ".pdf"), _, rfl, ?_⟩
    exact List.mem_filter.mpr ⟨h3, h2⟩

/-- Witness for claim C10 at a concrete URL, directory listing and
mid-stream failure. -/
theorem C10_partial_file_kept_witness :
    lookupKey ([] : Reg) (basename "https://docs.aws.amazon.com/ec2/latest/g.pdf")
      = none ∧
    (((run [true, true]
      { reg := [], fs := [],
        prog1 := downloadProg "https://docs.aws.amazon.com/ec2/latest/g.pdf"
          "ec2" (FetchResult.midStream [4, 5]),
        prog2 := [], wrote1 := false, wrote2 := false }).reg = ([] : Reg)) ∧
    (lookupKey (run [true, true]
      { reg := [], fs := [],
        prog1 := downloadProg "https://docs.aws.amazon.com/ec2/latest/g.pdf"
          "ec2" (FetchResult.midStream [4, 5]),
        prog2 := [], wrote1 := false, wrote2 := false }).fs
      (dlPath "https://docs.aws.amazon.com/ec2/latest/g.pdf" "ec2") =
        some [4, 5]) ∧
    basename "https://docs.aws.amazon.com/ec2/latest/g.pdf" ∈
      merge_input ([("g.pdf", 2)].map (fun fe => fe.1)) ∧
    (∃ pdfs total,
      summarize_sizes ⟨true, [("g.pdf", 2)]⟩ = Except.ok (pdfs, total) ∧
      (basename "https://docs.aws.amazon.com/ec2/latest/g.pdf", 2) ∈ pdfs)) :=
  ⟨by decide,
   C10_partial_file_kept "https://docs.aws.amazon.com/ec2/latest/g.pdf" "ec2"
     [4, 5] [] [] [("g.pdf", 2)] 2 (by decide) (by decide) (by decide)⟩

end AwsCrawler
